import Mathlib

/-!
Verification of the credential-resolution subsystem of `repoinit` (`main.go`).

The Go source is shallowly embedded: pure classification logic becomes Lean
functions, the effectful fallback chain (`resolveGitHubToken`) becomes a pure
function of an explicit `World` describing the environment, file system,
companion-CLI behaviour and device-flow responses, returning its result
together with a trace of observable effects.  The OAuth device-flow polling
loop (`runDeviceFlow` in Go) becomes a fuel-indexed step function over the
sequence of poll responses, with explicit wall-clock tick times.
-/

namespace Repoinit

/-! ### Go `strings.TrimSpace`

Model of the whitespace set used by Go's `unicode.IsSpace` for the code points
that can occur at the edges of tokens handled here (Latin-1 range). -/

def isGoSpace (c : Char) : Bool :=
  c == ' ' || c == '\t' || c == '\n' || c == '\u000B' || c == '\u000C' ||
    c == '\r' || c == '\u0085' || c == ' '

/-- Characters of a string with leading and trailing whitespace removed,
as `strings.TrimSpace` does. -/
def trimChars (l : List Char) : List Char :=
  (l.dropWhile isGoSpace).rdropWhile isGoSpace

/-- Model of Go `strings.TrimSpace`. -/
def goTrim (s : String) : String :=
  ⟨trimChars s.data⟩

/-- A string carries no leading and no trailing whitespace. -/
def noEdgeSpaceB (s : String) : Bool :=
  (match s.data.head? with
   | none => true
   | some c => !(isGoSpace c)) &&
  (match s.data.getLast? with
   | none => true
   | some c => !(isGoSpace c))

/-! ### Device-flow wire data (`deviceCodeResponse`, `deviceTokenResponse`) -/

/-- JSON body of the device-code initiation response (`deviceCodeResponse` in
`main.go`).  Absent JSON fields decode to `""` and `0`, as in Go. -/
structure DeviceCodeResponse where
  deviceCode : String
  userCode : String
  verificationURI : String
  verificationURIComplete : String
  expiresIn : Int
  interval : Int
deriving DecidableEq

/-- JSON body of one token-endpoint poll response (`deviceTokenResponse` in
`main.go`).  An absent `error` field decodes to `""`. -/
structure DeviceTokenResponse where
  accessToken : String
  tokenType : String
  scope : String
  error : String
  errorDesc : String
deriving DecidableEq

/-- What one poll attempt sees on the wire: the HTTP request itself can fail,
the body can fail to decode as JSON, or a decoded body is obtained. -/
inductive PollWire
  | httpError (msg : String)
  | decodeError (msg : String)
  | body (tr : DeviceTokenResponse)
deriving DecidableEq

/-- The triple returned by Go's `pollDeviceToken`:
`(token, continuePolling, err)`, with `err : Option String` standing for the
Go `error` (`none` = `nil`). -/
structure PollResult where
  token : String
  cont : Bool
  err : Option String
deriving DecidableEq

/-- Model of `pollDeviceToken` (`main.go` lines 339-376): request/decode
failures return `("", true, err)`; a decoded body is classified by its
`error` field exactly as the Go `switch`. -/
def pollDeviceToken : PollWire → PollResult
  | .httpError m => ⟨"", true, some m⟩
  | .decodeError m => ⟨"", true, some m⟩
  | .body tr =>
    if tr.error = "" then ⟨goTrim tr.accessToken, false, none⟩
    else if tr.error = "authorization_pending" then ⟨"", true, none⟩
    else if tr.error = "slow_down" then ⟨"", true, none⟩
    else if tr.error = "expired_token" then ⟨"", false, some "device code expired"⟩
    else if tr.error = "access_denied" then ⟨"", false, some "access denied by user"⟩
    else ⟨"", false, some ("oauth error: " ++ tr.error)⟩

/-- What the polling loop in `runDeviceFlow` does with one `PollResult`
(`main.go` lines 325-334): a non-nil error halts the flow with that error,
then a non-empty token is granted, then `!cont` means declined, otherwise
the loop continues. -/
inductive StepDecision
  | halt (msg : String)
  | grant (tok : String)
  | declined
  | next
deriving DecidableEq

def loopDecision (r : PollResult) : StepDecision :=
  match r.err with
  | some m => .halt m
  | none =>
    if r.token ≠ "" then .grant r.token
    else if r.cont then .next
    else .declined

/-- Effective polling interval in whole seconds (`main.go` lines 310-313):
the server value when positive, else 5. -/
def effectiveInterval (iv : Int) : Nat :=
  if iv ≤ 0 then 5 else iv.toNat

/-- Outcome of the whole polling loop.  `outOfFuel` is an artefact of the
fuel-indexed embedding; `loopAux_ne_outOfFuel` below shows the fuel chosen by
`runDeviceFlowLoop` never exhausts. -/
inductive FlowResult
  | granted (tok : String)
  | declined
  | flowError (msg : String)
  | expired
  | outOfFuel
deriving DecidableEq

/-- A run of the polling loop: its outcome, the elapsed wall-clock seconds at
termination, and the times (in seconds since initiation) at which poll
requests were issued. -/
structure FlowRun where
  result : FlowResult
  elapsed : Int
  pollTimes : List Int
deriving DecidableEq

/-- One `select` iteration of the polling loop in `runDeviceFlow`
(`main.go` lines 318-336), with explicit time.  Iteration `i` waits for the
ticker to fire at `i * ivl` seconds; the `time.After(expiry)` channel fires
at `expiry` seconds.  The timeout is taken when it fires strictly first, and
on a simultaneous firing when `tie = false` (Go resolves the tie of a `select`
nondeterministically, so theorems quantify over `tie`).  `fuel` bounds the
recursion; `runDeviceFlowLoop` supplies enough for it never to run out. -/
def loopAux (tie : Bool) (polls : Nat → PollWire) (ivl : Nat) (expiry : Int) :
    Nat → Nat → FlowRun
  | 0, i =>
    let tick : Int := ((i * ivl : Nat) : Int)
    if expiry < tick ∨ (expiry = tick ∧ tie = false) then
      ⟨.expired, max expiry (((i - 1) * ivl : Nat) : Int), []⟩
    else
      match loopDecision (pollDeviceToken (polls i)) with
      | .halt m => ⟨.flowError m, tick, [tick]⟩
      | .grant t => ⟨.granted t, tick, [tick]⟩
      | .declined => ⟨.declined, tick, [tick]⟩
      | .next => ⟨.outOfFuel, tick, [tick]⟩
  | fuel + 1, i =>
    let tick : Int := ((i * ivl : Nat) : Int)
    if expiry < tick ∨ (expiry = tick ∧ tie = false) then
      ⟨.expired, max expiry (((i - 1) * ivl : Nat) : Int), []⟩
    else
      match loopDecision (pollDeviceToken (polls i)) with
      | .halt m => ⟨.flowError m, tick, [tick]⟩
      | .grant t => ⟨.granted t, tick, [tick]⟩
      | .declined => ⟨.declined, tick, [tick]⟩
      | .next =>
        let rest := loopAux tie polls ivl expiry fuel (i + 1)
        ⟨rest.result, rest.elapsed, tick :: rest.pollTimes⟩

/-- The polling phase of `runDeviceFlow`, started from the first tick with
enough fuel (at most `expiresIn` iterations can continue, since the interval
is at least one second). -/
def runDeviceFlowLoop (tie : Bool) (polls : Nat → PollWire)
    (dc : DeviceCodeResponse) : FlowRun :=
  loopAux tie polls (effectiveInterval dc.interval) dc.expiresIn
    (dc.expiresIn.toNat + 1) 1

/-! ### Observable effects of the resolver -/

/-- Observable side effects of the credential-resolution chain.  `warn`
stands for a `log.Printf` warning; `resolveGitHubToken` never emits one
(persistence failures are discarded with `_ =` in the Go source). -/
inductive Effect
  | fileRead
  | fileWrite (content : String)
  | subprocess (cmd : String)
  | network
  | print (msg : String)
  | warn (msg : String)
deriving DecidableEq

def Effect.isWarn : Effect → Bool
  | .warn _ => true
  | _ => false

/-- The contents of the file writes occurring in an effect trace. -/
def writesOf (l : List Effect) : List String :=
  l.filterMap fun e =>
    match e with
    | .fileWrite c => some c
    | _ => none

/-- The conjunction of trace and result facts maintained across the whole
fallback chain: all file writes are trimmed non-empty credentials plus a
newline, no warning is ever emitted, and any returned credential is trimmed
and non-empty. -/
def ResolutionInv (p : Except String String × List Effect) : Prop :=
  (∀ c, c ∈ writesOf p.2 → ∃ u, c = u ++ "\n" ∧ noEdgeSpaceB u = true ∧ u ≠ "") ∧
  ((p.2.all fun e => !(e.isWarn)) = true) ∧
  (∀ t, p.1 = .ok t → noEdgeSpaceB t = true ∧ t ≠ "")


/-! ### Token store (`readStoredToken` / `writeStoredToken`) -/

/-- Model of `readStoredToken` (`main.go` lines 201-211).
`configPathOk` is whether `os.UserConfigDir` succeeds; `file` is the stored
file's contents, `none` when the file is absent or unreadable.  On success
the contents are returned trimmed — note that a whitespace-only file yields
`.ok ""`, not an error, exactly as the Go function returns `("", nil)`. -/
def readStoredToken (configPathOk : Bool) (file : Option String) :
    Except String String × List Effect :=
  if configPathOk then
    match file with
    | none => (.error "token file absent or unreadable", [.fileRead])
    | some data => (.ok (goTrim data), [.fileRead])
  else (.error "user config dir unavailable", [])

/-- Model of `writeStoredToken` (`main.go` lines 213-222).  Returns the Go
error (`none` = `nil`), the resulting file contents and the effect trace.
`os.WriteFile` truncates, so on success the new contents replace `prevFile`
outright; they are the trimmed token plus a newline. -/
def writeStoredToken (configPathOk writeOk : Bool) (prevFile : Option String)
    (tok : String) : Option String × Option String × List Effect :=
  if configPathOk then
    if writeOk then
      (none, some (goTrim tok ++ "\n"), [.fileWrite (goTrim tok ++ "\n")])
    else (some "write failed", prevFile, [.fileWrite (goTrim tok ++ "\n")])
  else (some "user config dir unavailable", prevFile, [])

/-! ### Companion CLI (`tryGhToken` / `tryGhWebLogin`) -/

/-- Model of `tryGhToken` (`main.go` lines 224-238).  `out` is the standard
output of `gh auth token` (`none` = the command failed); a blank output is
the `"empty gh token"` error. -/
def tryGhToken (ghInstalled : Bool) (out : Option String) :
    Except String String × List Effect :=
  if ghInstalled then
    match out with
    | none => (.error "gh auth token failed", [.subprocess "gh auth token"])
    | some o =>
      if goTrim o = "" then
        (.error "empty gh token", [.subprocess "gh auth token"])
      else (.ok (goTrim o), [.subprocess "gh auth token"])
  else (.error "gh executable not found in PATH", [])

/-- Model of `tryGhWebLogin` (`main.go` lines 240-250). -/
def tryGhWebLogin (ghInstalled loginOk : Bool) :
    Except String Unit × List Effect :=
  if ghInstalled then
    (if loginOk then .ok () else .error "gh auth login failed",
     [.subprocess "gh auth login --web --scopes repo"])
  else (.error "gh executable not found in PATH", [])

/-! ### Device flow (`runDeviceFlow`) -/

/-- Result of the device-code initiation request (`main.go` lines 274-298):
the POST can fail, return a non-2xx status (whose body is reported), fail to
decode, or produce a `DeviceCodeResponse`. -/
inductive InitResult
  | httpError (msg : String)
  | non2xx (respBody : String)
  | decodeError (msg : String)
  | ok (dc : DeviceCodeResponse)
deriving DecidableEq

/-- The lines printed to the user after initiation (`main.go` lines 301-307):
the combined verification URI when present, else URI plus user code. -/
def displayLines (dc : DeviceCodeResponse) : List String :=
  if dc.verificationURIComplete ≠ "" then
    ["To authenticate with GitHub, open this link in your browser:",
     "  " ++ dc.verificationURIComplete]
  else
    ["To authenticate with GitHub, open this link in your browser:",
     "  " ++ dc.verificationURI,
     "and enter the code: " ++ dc.userCode]

/-- The effect trace of a device-flow attempt whose initiation succeeded:
the initiation POST, the printed instructions, and one token-endpoint POST
per loop poll. -/
def dfEffects (tie : Bool) (polls : Nat → PollWire) (dc : DeviceCodeResponse) :
    List Effect :=
  Effect.network :: (displayLines dc).map Effect.print ++
    (runDeviceFlowLoop tie polls dc).pollTimes.map (fun _ => Effect.network)

/-- Model of `runDeviceFlow` (`main.go` lines 272-337): initiation, display,
then the polling loop, mapping loop outcomes to the Go return values. -/
def runDeviceFlow (tie : Bool) (polls : Nat → PollWire) (init : InitResult) :
    Except String String × List Effect :=
  match init with
  | .httpError m => (.error m, [.network])
  | .non2xx respBody =>
    (.error ("device code request failed: " ++ goTrim respBody), [.network])
  | .decodeError m => (.error m, [.network])
  | .ok dc =>
    match (runDeviceFlowLoop tie polls dc).result with
    | .granted t => (.ok t, dfEffects tie polls dc)
    | .declined => (.error "authorization declined", dfEffects tie polls dc)
    | .flowError m => (.error m, dfEffects tie polls dc)
    | .expired =>
      (.error "device code expired; please try again", dfEffects tie polls dc)
    | .outOfFuel => (.error "poll budget exhausted", dfEffects tie polls dc)

/-! ### Token resolver (`resolveGitHubToken`) -/

/-- The world a resolver run observes: environment variables, the stored
token file, the companion CLI's behaviour, and the device-flow endpoint's
responses.  The two `ghTokenOut` fields are the outputs of the two possible
`gh auth token` invocations (before and after the interactive login). -/
structure World where
  envGithubToken : String
  envOAuthClientID : String
  configPathOk : Bool
  storedFile : Option String
  ghInstalled : Bool
  ghTokenOut : Option String
  ghLoginOk : Bool
  ghTokenOutAfterLogin : Option String
  writeOk : Bool
  dfTie : Bool
  dfPolls : Nat → PollWire
  dfInit : InitResult

/-- The final `AuthenticationError` message (`main.go` line 189). -/
def noTokenMessage : String :=
  "no token found. Set GITHUB_TOKEN, or install GitHub CLI (gh) to login via web, or set GITHUB_OAUTH_CLIENT_ID to use device OAuth. See https://docs.github.com/apps/oauth-apps/building-oauth-apps/authorizing-oauth-apps for details."

/-- Steps 4-5 of the resolver (`main.go` lines 176-189): run the device flow
when `GITHUB_OAUTH_CLIENT_ID` is set (surfacing its error verbatim,
persisting and returning its token), else fail with `noTokenMessage`. -/
def deviceFlowStep (w : World) (acc : List Effect) :
    Except String String × List Effect :=
  if goTrim w.envOAuthClientID = "" then (.error noTokenMessage, acc)
  else
    match (runDeviceFlow w.dfTie w.dfPolls w.dfInit).1 with
    | .error e => (.error e, acc ++ (runDeviceFlow w.dfTie w.dfPolls w.dfInit).2)
    | .ok t =>
      if t = "" then
        (.error noTokenMessage, acc ++ (runDeviceFlow w.dfTie w.dfPolls w.dfInit).2)
      else
        (.ok t, acc ++ (runDeviceFlow w.dfTie w.dfPolls w.dfInit).2 ++
          (writeStoredToken w.configPathOk w.writeOk w.storedFile t).2.2)

/-- The value the resolver's step 2 extracts from the stored-token read
(`token, _ := readStoredToken()`): the token on success, `""` on error. -/
def storedTokenValue (w : World) : String :=
  match (readStoredToken w.configPathOk w.storedFile).1 with
  | .ok t => t
  | .error _ => ""

/-- Model of `resolveGitHubToken` (`main.go` lines 149-190): environment
variable, stored token, `gh auth token` (retried once after an interactive
`gh auth login`), then the device flow.  Errors of the intermediate steps are
dropped exactly where the Go code drops them (`_`, `else` fallthrough). -/
def resolveGitHubToken (w : World) : Except String String × List Effect :=
  if goTrim w.envGithubToken ≠ "" then (.ok (goTrim w.envGithubToken), [])
  else
    if storedTokenValue w ≠ "" then
      (.ok (storedTokenValue w), (readStoredToken w.configPathOk w.storedFile).2)
    else
      match (tryGhToken w.ghInstalled w.ghTokenOut).1 with
      | .ok t =>
        (.ok t, (readStoredToken w.configPathOk w.storedFile).2 ++
          (tryGhToken w.ghInstalled w.ghTokenOut).2 ++
          (writeStoredToken w.configPathOk w.writeOk w.storedFile t).2.2)
      | .error _ =>
        match (tryGhWebLogin w.ghInstalled w.ghLoginOk).1 with
        | .ok _ =>
          match (tryGhToken w.ghInstalled w.ghTokenOutAfterLogin).1 with
          | .ok t =>
            (.ok t, (readStoredToken w.configPathOk w.storedFile).2 ++
              (tryGhToken w.ghInstalled w.ghTokenOut).2 ++
              (tryGhWebLogin w.ghInstalled w.ghLoginOk).2 ++
              (tryGhToken w.ghInstalled w.ghTokenOutAfterLogin).2 ++
              (writeStoredToken w.configPathOk w.writeOk w.storedFile t).2.2)
          | .error _ =>
            deviceFlowStep w ((readStoredToken w.configPathOk w.storedFile).2 ++
              (tryGhToken w.ghInstalled w.ghTokenOut).2 ++
              (tryGhWebLogin w.ghInstalled w.ghLoginOk).2 ++
              (tryGhToken w.ghInstalled w.ghTokenOutAfterLogin).2)
        | .error _ =>
          deviceFlowStep w ((readStoredToken w.configPathOk w.storedFile).2 ++
            (tryGhToken w.ghInstalled w.ghTokenOut).2 ++
            (tryGhWebLogin w.ghInstalled w.ghLoginOk).2)

def exceptErr {α : Type} : Except String α → Bool
  | .error _ => true
  | .ok _ => false

/-! ### Auxiliary notions used by the theorems -/

/-- The ticker's `k`-th firing (at `k * ivl` seconds) wins the `select` race
against the `expiry` timeout: it fires strictly first, or simultaneously with
the tie resolved in its favour. -/
def tickWins (tie : Bool) (ivl : Nat) (expiry : Int) (k : Nat) : Prop :=
  ((k * ivl : Nat) : Int) < expiry ∨
    (((k * ivl : Nat) : Int) = expiry ∧ tie = true)

/-- How the loop finishes when an iteration's decision is terminal (the
`.next` case is never used under the hypotheses of the lemmas below). -/
def decisionResult : StepDecision → FlowResult
  | .halt m => .flowError m
  | .grant t => .granted t
  | .declined => .declined
  | .next => .outOfFuel

/-! ### Concrete sample inputs (used by witnesses and counterexamples) -/

def pendingBody : DeviceTokenResponse :=
  ⟨"", "", "", "authorization_pending", ""⟩

def deniedBody : DeviceTokenResponse :=
  ⟨"", "", "", "access_denied", ""⟩

def blankBody : DeviceTokenResponse :=
  ⟨"", "", "", "", ""⟩

def unknownErrBody : DeviceTokenResponse :=
  ⟨"", "", "", "unsupported_grant_type", ""⟩

def dcSample : DeviceCodeResponse :=
  ⟨"D", "ABCD-1234", "https://github.com/login/device", "", 900, 5⟩

def dcShort : DeviceCodeResponse :=
  ⟨"D", "ABCD-1234", "https://github.com/login/device", "", 10, 5⟩

def wEnv : World where
  envGithubToken := "  tok  "
  envOAuthClientID := ""
  configPathOk := true
  storedFile := none
  ghInstalled := false
  ghTokenOut := none
  ghLoginOk := false
  ghTokenOutAfterLogin := none
  writeOk := true
  dfTie := true
  dfPolls := fun _ => .body pendingBody
  dfInit := .ok dcSample

/-- World in which steps 1-4 fail, the OAuth client id is set, and the first
poll of the device flow is denied by the user. -/
def wDenied : World :=
  { wEnv with envGithubToken := "", envOAuthClientID := "x",
              dfPolls := fun _ => .body deniedBody }

/-- World in which `gh auth token` yields a credential but persisting it
fails. -/
def wGhWriteFail : World :=
  { wEnv with envGithubToken := "", ghInstalled := true,
              ghTokenOut := some "ghp_abc\n", writeOk := false }

/-- World in which every fallback fails and no OAuth client id is set. -/
def wNoOptions : World :=
  { wEnv with envGithubToken := "" }

/-! ## Lemmas about the trimming model -/

lemma goTrim_data (s : String) : (goTrim s).data = trimChars s.data := rfl

lemma trimChars_head {l : List Char} {c : Char}
    (h : (trimChars l).head? = some c) : isGoSpace c = false := by
  obtain ⟨t, ht⟩ := List.rdropWhile_prefix isGoSpace (l.dropWhile isGoSpace)
  have hA : (l.dropWhile isGoSpace).head? = some c := by
    rw [← ht, List.head?_append]
    rw [show (List.rdropWhile isGoSpace
      (List.dropWhile isGoSpace l)).head? = some c from h]
    rfl
  have h2 := List.head?_dropWhile_not isGoSpace l
  rw [hA] at h2
  exact h2

lemma trimChars_getLast {l : List Char} {c : Char}
    (h : (trimChars l).getLast? = some c) : isGoSpace c = false := by
  have hne : (l.dropWhile isGoSpace).rdropWhile isGoSpace ≠ [] := by
    intro he
    rw [show trimChars l = (l.dropWhile isGoSpace).rdropWhile isGoSpace from rfl,
      he] at h
    simp at h
  have h2 := List.rdropWhile_last_not isGoSpace (l.dropWhile isGoSpace) hne
  have h3 : (trimChars l).getLast? =
      some (((l.dropWhile isGoSpace).rdropWhile isGoSpace).getLast hne) :=
    List.getLast?_eq_getLast _ hne
  rw [h] at h3
  have : c = ((l.dropWhile isGoSpace).rdropWhile isGoSpace).getLast hne := by
    exact Option.some_injective _ h3
  rw [this]
  simpa using h2

lemma noEdge_goTrim (s : String) : noEdgeSpaceB (goTrim s) = true := by
  have h1 : (match (trimChars s.data).head? with
      | none => true
      | some c => !(isGoSpace c)) = true := by
    cases hh : (trimChars s.data).head? with
    | none => rfl
    | some c => simp [trimChars_head hh]
  have h2 : (match (trimChars s.data).getLast? with
      | none => true
      | some c => !(isGoSpace c)) = true := by
    cases hg : (trimChars s.data).getLast? with
    | none => rfl
    | some c => simp [trimChars_getLast hg]
  unfold noEdgeSpaceB
  rw [goTrim_data, h1, h2]
  rfl

lemma goTrim_eq_self {s : String} (h : noEdgeSpaceB s = true) : goTrim s = s := by
  apply String.ext
  rw [goTrim_data]
  unfold noEdgeSpaceB at h
  rw [Bool.and_eq_true] at h
  obtain ⟨h1, h2⟩ := h
  unfold trimChars
  have hd : s.data.dropWhile isGoSpace = s.data := by
    cases hs : s.data with
    | nil => rfl
    | cons c t =>
      have hc : isGoSpace c = false := by
        rw [hs] at h1
        simpa using h1
      simp [List.dropWhile_cons, hc]
  rw [hd, List.rdropWhile_eq_self_iff]
  intro hl
  have h3 : s.data.getLast? = some (s.data.getLast hl) :=
    List.getLast?_eq_getLast _ hl
  rw [h3] at h2
  simpa using h2

lemma goTrim_idem (s : String) : goTrim (goTrim s) = goTrim s :=
  goTrim_eq_self (noEdge_goTrim s)

lemma goTrim_append_newline {u : String} (h : noEdgeSpaceB u = true) :
    goTrim (u ++ "\n") = u := by
  apply String.ext
  rw [goTrim_data, String.data_append]
  rw [show ("\n" : String).data = ['\n'] from rfl]
  unfold noEdgeSpaceB at h
  rw [Bool.and_eq_true] at h
  obtain ⟨h1, h2⟩ := h
  unfold trimChars
  cases hs : u.data with
  | nil => rfl
  | cons c t =>
    have hc : isGoSpace c = false := by
      rw [hs] at h1
      simpa using h1
    rw [show (c :: t) ++ ['\n'] = c :: (t ++ ['\n']) from rfl,
      List.dropWhile_cons_of_neg (by simp [hc]),
      show c :: (t ++ ['\n']) = (c :: t) ++ ['\n'] from rfl,
      List.rdropWhile_concat_pos isGoSpace (c :: t) '\n' (by decide),
      List.rdropWhile_eq_self_iff]
    intro hl
    have h3 : (c :: t).getLast? = some ((c :: t).getLast hl) :=
      List.getLast?_eq_getLast _ hl
    rw [show (c :: t).getLast? = u.data.getLast? from by rw [hs]] at h3
    rw [h3] at h2
    simpa using h2

/-! ## Lemmas about the polling loop -/

lemma loopAux_all_next (tie : Bool) (polls : Nat → PollWire) (ivl : Nat)
    (expiry : Int) (hiv : 1 ≤ ivl)
    (hall : ∀ k, loopDecision (pollDeviceToken (polls k)) = .next) :
    ∀ fuel i, 1 ≤ i → expiry.toNat + 2 ≤ fuel + i →
      (((i - 1) * ivl : Nat) : Int) ≤ max expiry 0 →
      (loopAux tie polls ivl expiry fuel i).result = .expired ∧
        (loopAux tie polls ivl expiry fuel i).elapsed = max expiry 0 := by
  intro fuel
  induction fuel with
  | zero =>
    intro i hi hfuel hprev
    by_cases hg : expiry < ((i * ivl : Nat) : Int) ∨
        (expiry = ((i * ivl : Nat) : Int) ∧ tie = false)
    · refine ⟨?_, ?_⟩
      · simp only [loopAux, if_pos hg]
      · simp only [loopAux, if_pos hg]
        show max expiry (((i - 1) * ivl : Nat) : Int) = max expiry 0
        rcases le_or_lt expiry 0 with hle | hlt
        · rw [max_eq_right hle] at hprev
          have hz : (((i - 1) * ivl : Nat) : Int) = 0 :=
            le_antisymm hprev (by positivity)
          rw [hz]
        · rw [max_eq_left hlt.le] at hprev
          rw [max_eq_left hlt.le, max_eq_left hprev]
    · exfalso
      push_neg at hg
      have h1 : ((i * ivl : Nat) : Int) ≤ expiry := hg.1
      have h2 : i ≤ i * ivl := Nat.le_mul_of_pos_right i (by omega)
      have h3 : (i : Int) ≤ expiry := le_trans (by exact_mod_cast h2) h1
      omega
  | succ fuel ih =>
    intro i hi hfuel hprev
    by_cases hg : expiry < ((i * ivl : Nat) : Int) ∨
        (expiry = ((i * ivl : Nat) : Int) ∧ tie = false)
    · refine ⟨?_, ?_⟩
      · simp only [loopAux, if_pos hg]
      · simp only [loopAux, if_pos hg]
        show max expiry (((i - 1) * ivl : Nat) : Int) = max expiry 0
        rcases le_or_lt expiry 0 with hle | hlt
        · rw [max_eq_right hle] at hprev
          have hz : (((i - 1) * ivl : Nat) : Int) = 0 :=
            le_antisymm hprev (by positivity)
          rw [hz]
        · rw [max_eq_left hlt.le] at hprev
          rw [max_eq_left hlt.le, max_eq_left hprev]
    · simp only [loopAux, if_neg hg, hall i]
      have h1 : ((i * ivl : Nat) : Int) ≤ expiry := by
        push_neg at hg
        exact hg.1
      have hprev' : ((((i + 1) - 1) * ivl : Nat) : Int) ≤ max expiry 0 := by
        simp only [Nat.add_sub_cancel]
        exact le_trans h1 (le_max_left _ _)
      have hrec := ih (i + 1) (by omega) (by omega) hprev'
      exact ⟨hrec.1, hrec.2⟩

lemma effectiveInterval_pos (iv : Int) : 1 ≤ effectiveInterval iv := by
  unfold effectiveInterval
  split
  · omega
  · omega

lemma range_map_shift (ivl i n : Nat) :
    (List.range (n + 1)).map (fun j => (((i + j) * ivl : Nat) : Int)) =
      (((i * ivl : Nat) : Int)) ::
        (List.range n).map (fun j => ((((i + 1) + j) * ivl : Nat) : Int)) := by
  rw [List.range_succ_eq_map, List.map_cons, List.map_map]
  have hc : ((fun j => (((i + j) * ivl : Nat) : Int)) ∘ Nat.succ) =
      fun j => ((((i + 1) + j) * ivl : Nat) : Int) := by
    funext j
    simp only [Function.comp_apply]
    congr 2
    omega
  rw [hc]
  simp

lemma loopAux_pollTimes (tie : Bool) (polls : Nat → PollWire) (ivl : Nat)
    (expiry : Int) :
    ∀ fuel i, (loopAux tie polls ivl expiry fuel i).pollTimes =
      (List.range (loopAux tie polls ivl expiry fuel i).pollTimes.length).map
        (fun j => (((i + j) * ivl : Nat) : Int)) := by
  intro fuel
  induction fuel with
  | zero =>
    intro i
    by_cases hg : expiry < ((i * ivl : Nat) : Int) ∨
        (expiry = ((i * ivl : Nat) : Int) ∧ tie = false)
    · simp only [loopAux, if_pos hg]
      simp
    · simp only [loopAux, if_neg hg]
      cases hd : loopDecision (pollDeviceToken (polls i)) <;>
        simp [List.range_succ]
  | succ fuel ih =>
    intro i
    by_cases hg : expiry < ((i * ivl : Nat) : Int) ∨
        (expiry = ((i * ivl : Nat) : Int) ∧ tie = false)
    · simp only [loopAux, if_pos hg]
      simp
    · simp only [loopAux, if_neg hg]
      cases hd : loopDecision (pollDeviceToken (polls i)) with
      | next =>
        simp only [List.length_cons]
        rw [range_map_shift]
        congr 1
        exact ih (i + 1)
      | halt m => simp [List.range_succ]
      | grant t => simp [List.range_succ]
      | declined => simp [List.range_succ]

lemma loopAux_at_terminal (tie : Bool) (polls : Nat → PollWire) (ivl : Nat)
    (expiry : Int) (k : Nat)
    (hgf : ¬(expiry < ((k * ivl : Nat) : Int) ∨
      (expiry = ((k * ivl : Nat) : Int) ∧ tie = false)))
    (hterm : loopDecision (pollDeviceToken (polls k)) ≠ .next) :
    ∀ fuel, loopAux tie polls ivl expiry fuel k =
      ⟨decisionResult (loopDecision (pollDeviceToken (polls k))),
       ((k * ivl : Nat) : Int), [((k * ivl : Nat) : Int)]⟩ := by
  intro fuel
  cases fuel with
  | zero =>
    simp only [loopAux, if_neg hgf]
    cases hd : loopDecision (pollDeviceToken (polls k)) with
    | next => exact absurd hd hterm
    | halt m => simp [decisionResult]
    | grant t => simp [decisionResult]
    | declined => simp [decisionResult]
  | succ fuel =>
    simp only [loopAux, if_neg hgf]
    cases hd : loopDecision (pollDeviceToken (polls k)) with
    | next => exact absurd hd hterm
    | halt m => simp [decisionResult]
    | grant t => simp [decisionResult]
    | declined => simp [decisionResult]

lemma loopAux_first_terminal (tie : Bool) (polls : Nat → PollWire) (ivl : Nat)
    (expiry : Int) (hiv : 1 ≤ ivl) (k : Nat)
    (hwin : tickWins tie ivl expiry k)
    (hterm : loopDecision (pollDeviceToken (polls k)) ≠ .next) :
    ∀ fuel i, 1 ≤ i → i ≤ k → expiry.toNat + 2 ≤ fuel + i →
      (∀ j, i ≤ j → j < k → loopDecision (pollDeviceToken (polls j)) = .next) →
      loopAux tie polls ivl expiry fuel i =
        ⟨decisionResult (loopDecision (pollDeviceToken (polls k))),
         ((k * ivl : Nat) : Int),
         (List.range (k + 1 - i)).map
           (fun j => (((i + j) * ivl : Nat) : Int))⟩ := by
  have htk : ((k * ivl : Nat) : Int) ≤ expiry := by
    rcases hwin with h | ⟨h, _⟩
    · exact h.le
    · exact le_of_eq h
  have hkk : ∀ i, i < k →
      ¬(expiry < ((i * ivl : Nat) : Int) ∨
        (expiry = ((i * ivl : Nat) : Int) ∧ tie = false)) := by
    intro i hlt
    have hmul : i * ivl < k * ivl := by
      have := Nat.mul_lt_mul_of_lt_of_le hlt (le_refl ivl) (by omega)
      exact this
    have h1 : ((i * ivl : Nat) : Int) < expiry :=
      lt_of_lt_of_le (by exact_mod_cast hmul) htk
    intro hg
    rcases hg with hg | ⟨hg, _⟩
    · omega
    · omega
  have hgk : ¬(expiry < ((k * ivl : Nat) : Int) ∨
      (expiry = ((k * ivl : Nat) : Int) ∧ tie = false)) := by
    intro hg
    rcases hwin with h | ⟨h, htie⟩
    · rcases hg with hg | ⟨hg, _⟩
      · omega
      · omega
    · rcases hg with hg | ⟨_, hgtie⟩
      · omega
      · rw [htie] at hgtie
        exact absurd hgtie (by simp)
  intro fuel
  induction fuel with
  | zero =>
    intro i hi hik hfuel hnext
    rcases eq_or_lt_of_le hik with heq | hlt
    · subst heq
      rw [loopAux_at_terminal tie polls ivl expiry i hgk hterm 0]
      have hr : i + 1 - i = 1 := by omega
      rw [hr]
      simp [List.range_succ]
    · exfalso
      have h2 : k ≤ k * ivl := Nat.le_mul_of_pos_right k (by omega)
      have h3 : (k : Int) ≤ expiry := le_trans (by exact_mod_cast h2) htk
      omega
  | succ fuel ih =>
    intro i hi hik hfuel hnext
    rcases eq_or_lt_of_le hik with heq | hlt
    · subst heq
      rw [loopAux_at_terminal tie polls ivl expiry i hgk hterm (fuel + 1)]
      have hr : i + 1 - i = 1 := by omega
      rw [hr]
      simp [List.range_succ]
    · simp only [loopAux, if_neg (hkk i hlt), hnext i le_rfl hlt]
      have hrec := ih (i + 1) (by omega) (by omega) (by omega)
        (fun j hj hjk => hnext j (by omega) hjk)
      rw [hrec]
      have hr : k + 1 - i = (k - i) + 1 := by omega
      rw [hr, range_map_shift]
      have hr2 : k + 1 - (i + 1) = k - i := by omega
      rw [hr2] at hrec
      simp

lemma loopDecision_grant {wire : PollWire} {t : String}
    (h : loopDecision (pollDeviceToken wire) = .grant t) :
    noEdgeSpaceB t = true ∧ t ≠ "" := by
  cases wire with
  | httpError m => simp [pollDeviceToken, loopDecision] at h
  | decodeError m => simp [pollDeviceToken, loopDecision] at h
  | body tr =>
    simp only [pollDeviceToken] at h
    split_ifs at h with h0 h1 h2 h3 h4
    · simp only [loopDecision] at h
      by_cases ha : goTrim tr.accessToken = ""
      · rw [if_neg (by simp [ha])] at h
        rw [if_neg (by simp)] at h
        simp at h
      · rw [if_pos (by simp [ha])] at h
        have ht : goTrim tr.accessToken = t := by
          simpa using h
        rw [← ht]
        exact ⟨noEdge_goTrim tr.accessToken, ha⟩
    · simp [loopDecision] at h
    · simp [loopDecision] at h
    · simp [loopDecision] at h
    · simp [loopDecision] at h
    · simp [loopDecision] at h

lemma loopAux_granted (tie : Bool) (polls : Nat → PollWire) (ivl : Nat)
    (expiry : Int) :
    ∀ fuel i t, (loopAux tie polls ivl expiry fuel i).result = .granted t →
      noEdgeSpaceB t = true ∧ t ≠ "" := by
  intro fuel
  induction fuel with
  | zero =>
    intro i t h
    by_cases hg : expiry < ((i * ivl : Nat) : Int) ∨
        (expiry = ((i * ivl : Nat) : Int) ∧ tie = false)
    · simp only [loopAux, if_pos hg] at h
      simp at h
    · simp only [loopAux, if_neg hg] at h
      cases hd : loopDecision (pollDeviceToken (polls i)) with
      | grant s =>
        rw [hd] at h
        have hts : s = t := by simpa using h
        rw [← hts]
        exact loopDecision_grant hd
      | halt m => rw [hd] at h; simp at h
      | declined => rw [hd] at h; simp at h
      | next => rw [hd] at h; simp at h
  | succ fuel ih =>
    intro i t h
    by_cases hg : expiry < ((i * ivl : Nat) : Int) ∨
        (expiry = ((i * ivl : Nat) : Int) ∧ tie = false)
    · simp only [loopAux, if_pos hg] at h
      simp at h
    · simp only [loopAux, if_neg hg] at h
      cases hd : loopDecision (pollDeviceToken (polls i)) with
      | grant s =>
        rw [hd] at h
        have hts : s = t := by simpa using h
        rw [← hts]
        exact loopDecision_grant hd
      | halt m => rw [hd] at h; simp at h
      | declined => rw [hd] at h; simp at h
      | next =>
        rw [hd] at h
        exact ih (i + 1) t (by simpa using h)

lemma loopAux_ne_outOfFuel (tie : Bool) (polls : Nat → PollWire) (ivl : Nat)
    (expiry : Int) (hiv : 1 ≤ ivl) :
    ∀ fuel i, 1 ≤ i → expiry.toNat + 2 ≤ fuel + i →
      (loopAux tie polls ivl expiry fuel i).result ≠ .outOfFuel := by
  intro fuel
  induction fuel with
  | zero =>
    intro i hi hfuel
    by_cases hg : expiry < ((i * ivl : Nat) : Int) ∨
        (expiry = ((i * ivl : Nat) : Int) ∧ tie = false)
    · simp only [loopAux, if_pos hg]
      simp
    · exfalso
      push_neg at hg
      have h1 : ((i * ivl : Nat) : Int) ≤ expiry := hg.1
      have h2 : i ≤ i * ivl := Nat.le_mul_of_pos_right i (by omega)
      have h3 : (i : Int) ≤ expiry := le_trans (by exact_mod_cast h2) h1
      omega
  | succ fuel ih =>
    intro i hi hfuel
    by_cases hg : expiry < ((i * ivl : Nat) : Int) ∨
        (expiry = ((i * ivl : Nat) : Int) ∧ tie = false)
    · simp only [loopAux, if_pos hg]
      simp
    · simp only [loopAux, if_neg hg]
      cases hd : loopDecision (pollDeviceToken (polls i)) with
      | grant s => simp
      | halt m => simp
      | declined => simp
      | next =>
        simpa using ih (i + 1) (by omega) (by omega)

lemma runDeviceFlowLoop_ne_outOfFuel (tie : Bool) (polls : Nat → PollWire)
    (dc : DeviceCodeResponse) :
    (runDeviceFlowLoop tie polls dc).result ≠ .outOfFuel := by
  unfold runDeviceFlowLoop
  exact loopAux_ne_outOfFuel tie polls _ dc.expiresIn
    (effectiveInterval_pos dc.interval) (dc.expiresIn.toNat + 1) 1
    (le_refl 1) (by omega)

/-! ## Lemmas about the resolver components -/

lemma writesOf_append (a b : List Effect) :
    writesOf (a ++ b) = writesOf a ++ writesOf b := by
  simp [writesOf]

lemma noWarn_append {a b : List Effect} (ha : (a.all fun e => !(e.isWarn)) = true)
    (hb : (b.all fun e => !(e.isWarn)) = true) :
    ((a ++ b).all fun e => !(e.isWarn)) = true := by
  simp only [List.all_append, ha, hb]
  rfl

lemma readStoredToken_writes (cfg : Bool) (file : Option String) :
    writesOf (readStoredToken cfg file).2 = [] := by
  unfold readStoredToken
  cases cfg <;> cases file <;> simp [writesOf]

lemma readStoredToken_no_warn (cfg : Bool) (file : Option String) :
    (((readStoredToken cfg file).2).all fun e => !(e.isWarn)) = true := by
  unfold readStoredToken
  cases cfg <;> cases file <;> simp [Effect.isWarn]

lemma readStoredToken_trimmed (cfg : Bool) (file : Option String) (t : String)
    (h : (readStoredToken cfg file).1 = .ok t) : noEdgeSpaceB t = true := by
  unfold readStoredToken at h
  cases cfg with
  | false => simp at h
  | true =>
    cases file with
    | none => simp at h
    | some data =>
      have : goTrim data = t := by simpa using h
      rw [← this]
      exact noEdge_goTrim data

lemma tryGhToken_writes (ins : Bool) (out : Option String) :
    writesOf (tryGhToken ins out).2 = [] := by
  unfold tryGhToken
  cases ins <;> cases out <;>
    (simp [writesOf]; try (split_ifs <;> simp [writesOf]))

lemma tryGhToken_no_warn (ins : Bool) (out : Option String) :
    (((tryGhToken ins out).2).all fun e => !(e.isWarn)) = true := by
  unfold tryGhToken
  cases ins <;> cases out <;>
    (simp [Effect.isWarn]; try (split_ifs <;> simp [Effect.isWarn]))

lemma tryGhToken_ok {ins : Bool} {out : Option String} {t : String}
    (h : (tryGhToken ins out).1 = .ok t) :
    noEdgeSpaceB t = true ∧ t ≠ "" ∧ goTrim t = t := by
  cases ins with
  | false => simp [tryGhToken] at h
  | true =>
    cases out with
    | none => simp [tryGhToken] at h
    | some o =>
      by_cases he : goTrim o = ""
      · simp [tryGhToken, he] at h
      · have hto : goTrim o = t := by simpa [tryGhToken, he] using h
        rw [← hto]
        exact ⟨noEdge_goTrim o, he, goTrim_idem o⟩

lemma tryGhWebLogin_writes (ins lg : Bool) :
    writesOf (tryGhWebLogin ins lg).2 = [] := by
  unfold tryGhWebLogin
  cases ins <;> simp [writesOf]

lemma tryGhWebLogin_no_warn (ins lg : Bool) :
    (((tryGhWebLogin ins lg).2).all fun e => !(e.isWarn)) = true := by
  unfold tryGhWebLogin
  cases ins <;> simp [Effect.isWarn]

lemma writeStoredToken_writes (cfg wo : Bool) (prev : Option String)
    (tok : String) :
    ∀ c, c ∈ writesOf (writeStoredToken cfg wo prev tok).2.2 →
      c = goTrim tok ++ "\n" := by
  intro c hc
  unfold writeStoredToken at hc
  cases cfg with
  | false => simp [writesOf] at hc
  | true =>
    cases wo with
    | false =>
      simp [writesOf] at hc
      exact hc
    | true =>
      simp [writesOf] at hc
      exact hc

lemma writeStoredToken_no_warn (cfg wo : Bool) (prev : Option String)
    (tok : String) :
    (((writeStoredToken cfg wo prev tok).2.2).all fun e => !(e.isWarn)) = true := by
  unfold writeStoredToken
  cases cfg <;> cases wo <;> simp [Effect.isWarn]

lemma dfEffects_writes (tie : Bool) (polls : Nat → PollWire)
    (dc : DeviceCodeResponse) : writesOf (dfEffects tie polls dc) = [] := by
  unfold dfEffects writesOf
  simp [List.filterMap_eq_nil_iff]

lemma dfEffects_no_warn (tie : Bool) (polls : Nat → PollWire)
    (dc : DeviceCodeResponse) :
    ((dfEffects tie polls dc).all fun e => !(e.isWarn)) = true := by
  unfold dfEffects
  simp [List.all_eq_true]
  refine ⟨rfl, fun a ha => rfl, Or.inr rfl⟩

lemma runDeviceFlow_writes (tie : Bool) (polls : Nat → PollWire)
    (init : InitResult) : writesOf (runDeviceFlow tie polls init).2 = [] := by
  cases init with
  | httpError m => simp [runDeviceFlow, writesOf]
  | non2xx b => simp [runDeviceFlow, writesOf]
  | decodeError m => simp [runDeviceFlow, writesOf]
  | ok dc =>
    simp only [runDeviceFlow]
    cases hr : (runDeviceFlowLoop tie polls dc).result <;>
      simpa using dfEffects_writes tie polls dc

lemma runDeviceFlow_no_warn (tie : Bool) (polls : Nat → PollWire)
    (init : InitResult) :
    (((runDeviceFlow tie polls init).2).all fun e => !(e.isWarn)) = true := by
  cases init with
  | httpError m => simp [runDeviceFlow, Effect.isWarn]
  | non2xx b => simp [runDeviceFlow, Effect.isWarn]
  | decodeError m => simp [runDeviceFlow, Effect.isWarn]
  | ok dc =>
    simp only [runDeviceFlow]
    cases hr : (runDeviceFlowLoop tie polls dc).result <;>
      simpa using dfEffects_no_warn tie polls dc

lemma runDeviceFlow_ok {tie : Bool} {polls : Nat → PollWire}
    {init : InitResult} {t : String}
    (h : (runDeviceFlow tie polls init).1 = .ok t) :
    noEdgeSpaceB t = true ∧ t ≠ "" := by
  cases init with
  | httpError m => simp [runDeviceFlow] at h
  | non2xx b => simp [runDeviceFlow] at h
  | decodeError m => simp [runDeviceFlow] at h
  | ok dc =>
    simp only [runDeviceFlow] at h
    cases hr : (runDeviceFlowLoop tie polls dc).result with
    | granted s =>
      rw [hr] at h
      have hst : s = t := by simpa using h
      rw [← hst]
      unfold runDeviceFlowLoop at hr
      exact loopAux_granted _ _ _ _ _ _ _ hr
    | declined => rw [hr] at h; simp at h
    | flowError m => rw [hr] at h; simp at h
    | expired => rw [hr] at h; simp at h
    | outOfFuel => rw [hr] at h; simp at h

lemma runDeviceFlow_error_iff {tie : Bool} {polls : Nat → PollWire}
    {init : InitResult} {m : String} :
    (runDeviceFlow tie polls init).1 = .error m →
      ∀ t, (runDeviceFlow tie polls init).1 ≠ .ok t := by
  intro h t ht
  rw [h] at ht
  exact Except.noConfusion ht

lemma writeStoredToken_inv_writes (cfg wo : Bool) (prev : Option String)
    {tok : String} (htok : noEdgeSpaceB tok = true) (hne : tok ≠ "") :
    ∀ c, c ∈ writesOf (writeStoredToken cfg wo prev tok).2.2 →
      ∃ u, c = u ++ "\n" ∧ noEdgeSpaceB u = true ∧ u ≠ "" := by
  intro c hc
  have hcw := writeStoredToken_writes cfg wo prev tok c hc
  refine ⟨goTrim tok, hcw, noEdge_goTrim tok, ?_⟩
  rw [goTrim_eq_self htok]
  exact hne

lemma deviceFlowStep_spec (w : World) (acc : List Effect)
    (hw : ∀ c, c ∈ writesOf acc → ∃ u, c = u ++ "\n" ∧ noEdgeSpaceB u = true ∧ u ≠ "")
    (hn : (acc.all fun e => !(e.isWarn)) = true) :
    ResolutionInv (deviceFlowStep w acc) := by
  unfold deviceFlowStep
  by_cases hc : goTrim w.envOAuthClientID = ""
  · rw [if_pos hc]
    refine ⟨hw, hn, ?_⟩
    intro t ht
    simp at ht
  · rw [if_neg hc]
    cases hdf : (runDeviceFlow w.dfTie w.dfPolls w.dfInit).1 with
    | error e =>
      refine ⟨?_, ?_, ?_⟩
      · intro c hcm
        rw [writesOf_append] at hcm
        rcases List.mem_append.mp hcm with hm | hm
        · exact hw c hm
        · rw [runDeviceFlow_writes] at hm
          simp at hm
      · exact noWarn_append hn (runDeviceFlow_no_warn _ _ _)
      · intro t ht
        simp at ht
    | ok t =>
      have htok := runDeviceFlow_ok hdf
      dsimp only
      by_cases ht0 : t = ""
      · rw [if_pos ht0]
        refine ⟨?_, ?_, ?_⟩
        · intro c hcm
          rw [writesOf_append] at hcm
          rcases List.mem_append.mp hcm with hm | hm
          · exact hw c hm
          · rw [runDeviceFlow_writes] at hm
            simp at hm
        · exact noWarn_append hn (runDeviceFlow_no_warn _ _ _)
        · intro s hs
          simp at hs
      · rw [if_neg ht0]
        refine ⟨?_, ?_, ?_⟩
        · intro c hcm
          rw [writesOf_append, writesOf_append] at hcm
          rcases List.mem_append.mp hcm with hm | hm
          · rcases List.mem_append.mp hm with hm2 | hm2
            · exact hw c hm2
            · rw [runDeviceFlow_writes] at hm2
              simp at hm2
          · exact writeStoredToken_inv_writes _ _ _ htok.1 ht0 c hm
        · exact noWarn_append (noWarn_append hn (runDeviceFlow_no_warn _ _ _))
            (writeStoredToken_no_warn _ _ _ _)
        · intro s hs
          have : t = s := by simpa using hs
          rw [← this]
          exact htok

lemma resolve_env (w : World) (h : goTrim w.envGithubToken ≠ "") :
    resolveGitHubToken w = (.ok (goTrim w.envGithubToken), []) := by
  unfold resolveGitHubToken
  rw [if_pos h]

lemma storedTokenValue_spec (w : World) :
    storedTokenValue w = "" ∨ noEdgeSpaceB (storedTokenValue w) = true := by
  unfold storedTokenValue
  cases hrd : (readStoredToken w.configPathOk w.storedFile).1 with
  | error e => exact Or.inl rfl
  | ok t => exact Or.inr (readStoredToken_trimmed _ _ _ hrd)

lemma resolve_spec (w : World) : ResolutionInv (resolveGitHubToken w) := by
  by_cases henv : goTrim w.envGithubToken ≠ ""
  · rw [resolve_env w henv]
    refine ⟨?_, rfl, ?_⟩
    · intro c hc
      simp [writesOf] at hc
    · intro t ht
      have : goTrim w.envGithubToken = t := by simpa using ht
      rw [← this]
      exact ⟨noEdge_goTrim _, henv⟩
  · unfold resolveGitHubToken
    rw [if_neg henv]
    by_cases hst : storedTokenValue w ≠ ""
    · rw [if_pos hst]
      refine ⟨?_, ?_, ?_⟩
      · intro c hc
        rw [readStoredToken_writes] at hc
        simp at hc
      · exact readStoredToken_no_warn _ _
      · intro t ht
        have : storedTokenValue w = t := by simpa using ht
        rw [← this]
        rcases storedTokenValue_spec w with h0 | h0
        · exact absurd h0 hst
        · exact ⟨h0, hst⟩
    · rw [if_neg hst]
      cases hg1 : (tryGhToken w.ghInstalled w.ghTokenOut).1 with
      | ok t =>
        have htok := tryGhToken_ok hg1
        refine ⟨?_, ?_, ?_⟩
        · intro c hc
          rw [writesOf_append, writesOf_append, readStoredToken_writes,
            tryGhToken_writes] at hc
          simp at hc
          exact writeStoredToken_inv_writes _ _ _ htok.1 htok.2.1 c hc
        · exact noWarn_append (noWarn_append (readStoredToken_no_warn _ _)
            (tryGhToken_no_warn _ _)) (writeStoredToken_no_warn _ _ _ _)
        · intro s hs
          have : t = s := by simpa using hs
          rw [← this]
          exact ⟨htok.1, htok.2.1⟩
      | error e1 =>
        cases hlg : (tryGhWebLogin w.ghInstalled w.ghLoginOk).1 with
        | ok u =>
          cases hg2 : (tryGhToken w.ghInstalled w.ghTokenOutAfterLogin).1 with
          | ok t =>
            have htok := tryGhToken_ok hg2
            refine ⟨?_, ?_, ?_⟩
            · intro c hc
              rw [writesOf_append, writesOf_append, writesOf_append,
                writesOf_append, readStoredToken_writes, tryGhToken_writes,
                tryGhWebLogin_writes, tryGhToken_writes] at hc
              simp at hc
              exact writeStoredToken_inv_writes _ _ _ htok.1 htok.2.1 c hc
            · exact noWarn_append (noWarn_append (noWarn_append (noWarn_append
                (readStoredToken_no_warn _ _) (tryGhToken_no_warn _ _))
                (tryGhWebLogin_no_warn _ _)) (tryGhToken_no_warn _ _))
                (writeStoredToken_no_warn _ _ _ _)
            · intro s hs
              have : t = s := by simpa using hs
              rw [← this]
              exact ⟨htok.1, htok.2.1⟩
          | error e2 =>
            apply deviceFlowStep_spec
            · intro c hc
              rw [writesOf_append, writesOf_append, writesOf_append,
                readStoredToken_writes, tryGhToken_writes,
                tryGhWebLogin_writes, tryGhToken_writes] at hc
              simp at hc
            · exact noWarn_append (noWarn_append (noWarn_append
                (readStoredToken_no_warn _ _) (tryGhToken_no_warn _ _))
                (tryGhWebLogin_no_warn _ _)) (tryGhToken_no_warn _ _)
        | error e3 =>
          apply deviceFlowStep_spec
          · intro c hc
            rw [writesOf_append, writesOf_append, readStoredToken_writes,
              tryGhToken_writes, tryGhWebLogin_writes] at hc
            simp at hc
          · exact noWarn_append (noWarn_append (readStoredToken_no_warn _ _)
              (tryGhToken_no_warn _ _)) (tryGhWebLogin_no_warn _ _)

/-! ## Claim theorems -/

set_option maxRecDepth 10000

/-- C1: a single poll of the device flow classifies the parsed JSON body
exactly as specified: no error and a non-blank (trimmed) access token is a
grant of that token; `authorization_pending` and `slow_down` continue the
loop; `expired_token` and `access_denied` halt it with the expiry
respectively denial error; any other non-empty error string halts it with a
protocol error carrying that error text. -/
theorem C1_poll_classification (tr : DeviceTokenResponse) :
    (tr.error = "" → goTrim tr.accessToken ≠ "" →
      loopDecision (pollDeviceToken (.body tr)) = .grant (goTrim tr.accessToken)) ∧
    (tr.error = "authorization_pending" →
      loopDecision (pollDeviceToken (.body tr)) = .next) ∧
    (tr.error = "slow_down" →
      loopDecision (pollDeviceToken (.body tr)) = .next) ∧
    (tr.error = "expired_token" →
      loopDecision (pollDeviceToken (.body tr)) = .halt "device code expired") ∧
    (tr.error = "access_denied" →
      loopDecision (pollDeviceToken (.body tr)) = .halt "access denied by user") ∧
    (tr.error ≠ "" → tr.error ≠ "authorization_pending" →
      tr.error ≠ "slow_down" → tr.error ≠ "expired_token" →
      tr.error ≠ "access_denied" →
      loopDecision (pollDeviceToken (.body tr)) =
        .halt ("oauth error: " ++ tr.error)) := by
  refine ⟨?_, ?_, ?_, ?_, ?_, ?_⟩
  · intro h0 h1
    simp [pollDeviceToken, h0, loopDecision, h1]
  · intro h
    simp [pollDeviceToken, h, loopDecision]
  · intro h
    simp [pollDeviceToken, h, loopDecision]
  · intro h
    simp [pollDeviceToken, h, loopDecision]
  · intro h
    simp [pollDeviceToken, h, loopDecision]
  · intro h0 h1 h2 h3 h4
    simp [pollDeviceToken, h0, h1, h2, h3, h4, loopDecision]

/-- Witness for C1 at concrete poll bodies. -/
theorem C1_poll_classification_witness :
    loopDecision (pollDeviceToken (.body ⟨" tok ", "", "", "", ""⟩)) =
        .grant (goTrim " tok ") ∧
    loopDecision (pollDeviceToken (.body pendingBody)) = .next ∧
    loopDecision (pollDeviceToken (.body deniedBody)) =
        .halt "access denied by user" ∧
    loopDecision (pollDeviceToken (.body unknownErrBody)) =
        .halt ("oauth error: " ++ "unsupported_grant_type") :=
  ⟨(C1_poll_classification ⟨" tok ", "", "", "", ""⟩).1 rfl (by decide),
   (C1_poll_classification pendingBody).2.1 rfl,
   (C1_poll_classification deniedBody).2.2.2.2.1 rfl,
   (C1_poll_classification unknownErrBody).2.2.2.2.2
     (by decide) (by decide) (by decide) (by decide) (by decide)⟩

/-- C2: when the `GITHUB_TOKEN` environment variable is non-blank after
trimming, the resolver returns the trimmed value immediately with an empty
effect trace — no file read, no file write, no subprocess, no network call. -/
theorem C2_env_short_circuit (w : World)
    (h : goTrim w.envGithubToken ≠ "") :
    resolveGitHubToken w = (.ok (goTrim w.envGithubToken), []) :=
  resolve_env w h

/-- Witness for C2 at a concrete world. -/
theorem C2_env_short_circuit_witness :
    resolveGitHubToken wEnv = (.ok (goTrim "  tok  "), []) :=
  C2_env_short_circuit wEnv (by decide)

/-- C5: when every poll returns a continue outcome, the device-flow loop
fails with the expiry error exactly when the server-given expiry elapses
(at `max expiresIn 0` seconds), for either resolution of a simultaneous
tick/timeout race. -/
theorem C5_expiry_bound (tie : Bool) (polls : Nat → PollWire)
    (dc : DeviceCodeResponse)
    (hall : ∀ k, loopDecision (pollDeviceToken (polls k)) = .next) :
    (runDeviceFlowLoop tie polls dc).result = .expired ∧
    (runDeviceFlowLoop tie polls dc).elapsed = max dc.expiresIn 0 ∧
    (runDeviceFlow tie polls (.ok dc)).1 =
      .error "device code expired; please try again" := by
  have h := loopAux_all_next tie polls (effectiveInterval dc.interval)
    dc.expiresIn (effectiveInterval_pos _) hall (dc.expiresIn.toNat + 1) 1
    (le_refl 1) (by omega) (by simp)
  have h1 : (runDeviceFlowLoop tie polls dc).result = .expired := h.1
  have h2 : (runDeviceFlowLoop tie polls dc).elapsed = max dc.expiresIn 0 := h.2
  refine ⟨h1, h2, ?_⟩
  simp only [runDeviceFlow]
  rw [h1]

/-- Witness for C5: `expires_in = 10`, interval 5, all polls pending — the
flow expires at exactly 10 seconds. -/
theorem C5_expiry_bound_witness :
    (runDeviceFlowLoop true (fun _ => .body pendingBody) dcShort).result =
        .expired ∧
    (runDeviceFlowLoop true (fun _ => .body pendingBody) dcShort).elapsed = 10 ∧
    (runDeviceFlow true (fun _ => .body pendingBody) (.ok dcShort)).1 =
      .error "device code expired; please try again" := by
  have h := C5_expiry_bound true (fun _ => .body pendingBody) dcShort
    (fun k => rfl)
  exact ⟨h.1, by rw [h.2.1]; rfl, h.2.2⟩

/-- C7: the polling interval is the server value in whole seconds when
positive and defaults to 5 when absent (0) or non-positive; every poll of a
loop run is issued at consecutive multiples of that one interval (so the
interval is fixed for the whole loop); and a `slow_down` response is handled
as a plain continue, never increasing the interval. -/
theorem C7_fixed_interval :
    (∀ iv : Int, 0 < iv → effectiveInterval iv = iv.toNat) ∧
    (∀ iv : Int, iv ≤ 0 → effectiveInterval iv = 5) ∧
    (∀ (tie : Bool) (polls : Nat → PollWire) (dc : DeviceCodeResponse),
      (runDeviceFlowLoop tie polls dc).pollTimes =
        (List.range (runDeviceFlowLoop tie polls dc).pollTimes.length).map
          (fun j => (((1 + j) * effectiveInterval dc.interval : Nat) : Int))) ∧
    (∀ tr : DeviceTokenResponse, tr.error = "slow_down" →
      loopDecision (pollDeviceToken (.body tr)) = .next) := by
  refine ⟨?_, ?_, ?_, ?_⟩
  · intro iv h
    unfold effectiveInterval
    rw [if_neg (by omega)]
  · intro iv h
    unfold effectiveInterval
    rw [if_pos h]
  · intro tie polls dc
    unfold runDeviceFlowLoop
    exact loopAux_pollTimes tie polls (effectiveInterval dc.interval)
      dc.expiresIn (dc.expiresIn.toNat + 1) 1
  · intro tr h
    simp [pollDeviceToken, h, loopDecision]

/-- Witness for C7 at concrete inputs. -/
theorem C7_fixed_interval_witness :
    effectiveInterval 7 = (7 : Int).toNat ∧
    effectiveInterval (-3) = 5 ∧
    (runDeviceFlowLoop true (fun _ => .body pendingBody) dcShort).pollTimes =
      (List.range (runDeviceFlowLoop true (fun _ => .body pendingBody)
          dcShort).pollTimes.length).map
        (fun j => (((1 + j) * effectiveInterval dcShort.interval : Nat) : Int)) ∧
    loopDecision (pollDeviceToken (.body ⟨"", "", "", "slow_down", ""⟩)) =
      .next :=
  ⟨C7_fixed_interval.1 7 (by decide),
   C7_fixed_interval.2.1 (-3) (by decide),
   C7_fixed_interval.2.2.1 true (fun _ => .body pendingBody) dcShort,
   C7_fixed_interval.2.2.2 ⟨"", "", "", "slow_down", ""⟩ rfl⟩

/-- C9: a poll whose body has an absent (empty) error field and a blank
trimmed access token terminates the device flow immediately with the denial
error `authorization declined`: the run errs with that message and issues no
poll after the `k`-th. -/
theorem C9_blank_token_declines (tie : Bool) (polls : Nat → PollWire)
    (dc : DeviceCodeResponse) (k : Nat) (tr : DeviceTokenResponse)
    (hk : 1 ≤ k)
    (hbody : polls k = .body tr)
    (herr : tr.error = "")
    (htok : goTrim tr.accessToken = "")
    (hprev : ∀ j, 1 ≤ j → j < k →
      loopDecision (pollDeviceToken (polls j)) = .next)
    (hwin : tickWins tie (effectiveInterval dc.interval) dc.expiresIn k) :
    (runDeviceFlow tie polls (.ok dc)).1 = .error "authorization declined" ∧
    (runDeviceFlowLoop tie polls dc).pollTimes.length = k := by
  have hdec : loopDecision (pollDeviceToken (polls k)) = .declined := by
    rw [hbody]
    simp [pollDeviceToken, herr, loopDecision, htok]
  have h := loopAux_first_terminal tie polls (effectiveInterval dc.interval)
    dc.expiresIn (effectiveInterval_pos _) k hwin (by simp [hdec])
    (dc.expiresIn.toNat + 1) 1 le_rfl hk (by omega) hprev
  have hres : (runDeviceFlowLoop tie polls dc).result = .declined := by
    unfold runDeviceFlowLoop
    rw [h, hdec]
    rfl
  constructor
  · simp only [runDeviceFlow]
    rw [hres]
  · unfold runDeviceFlowLoop
    rw [h]
    simp

/-- Witness for C9: the first poll of a 900-second flow returns a body with
no error and a blank token. -/
theorem C9_blank_token_declines_witness :
    (runDeviceFlow true (fun _ => .body blankBody) (.ok dcSample)).1 =
        .error "authorization declined" ∧
    (runDeviceFlowLoop true (fun _ => .body blankBody)
        dcSample).pollTimes.length = 1 :=
  C9_blank_token_declines true (fun _ => .body blankBody) dcSample 1 blankBody
    le_rfl rfl rfl rfl (fun j h1 h2 => absurd h1 (by omega))
    (Or.inl (by decide))

/-- C10: a poll attempt that itself errors — the HTTP request fails, the
body fails to decode, or the error field holds an unrecognized non-empty
string — terminates the whole device flow immediately with that error and
issues no further poll requests. -/
theorem C10_poll_error_terminal (tie : Bool) (polls : Nat → PollWire)
    (dc : DeviceCodeResponse) (k : Nat) (m : String)
    (hk : 1 ≤ k)
    (hcause : polls k = .httpError m ∨ polls k = .decodeError m ∨
      (∃ tr : DeviceTokenResponse, polls k = .body tr ∧ tr.error ≠ "" ∧
        tr.error ≠ "authorization_pending" ∧ tr.error ≠ "slow_down" ∧
        tr.error ≠ "expired_token" ∧ tr.error ≠ "access_denied" ∧
        m = "oauth error: " ++ tr.error))
    (hprev : ∀ j, 1 ≤ j → j < k →
      loopDecision (pollDeviceToken (polls j)) = .next)
    (hwin : tickWins tie (effectiveInterval dc.interval) dc.expiresIn k) :
    (runDeviceFlow tie polls (.ok dc)).1 = .error m ∧
    (runDeviceFlowLoop tie polls dc).pollTimes.length = k := by
  have hdec : loopDecision (pollDeviceToken (polls k)) = .halt m := by
    rcases hcause with hc | hc | ⟨tr, hc, h0, h1, h2, h3, h4, hm⟩
    · rw [hc]
      rfl
    · rw [hc]
      rfl
    · rw [hc, hm]
      simp [pollDeviceToken, h0, h1, h2, h3, h4, loopDecision]
  have h := loopAux_first_terminal tie polls (effectiveInterval dc.interval)
    dc.expiresIn (effectiveInterval_pos _) k hwin (by simp [hdec])
    (dc.expiresIn.toNat + 1) 1 le_rfl hk (by omega) hprev
  have hres : (runDeviceFlowLoop tie polls dc).result = .flowError m := by
    unfold runDeviceFlowLoop
    rw [h, hdec]
    rfl
  constructor
  · simp only [runDeviceFlow]
    rw [hres]
  · unfold runDeviceFlowLoop
    rw [h]
    simp

/-- Witness for C10: the first poll returns the unrecognized error code
`unsupported_grant_type`. -/
theorem C10_poll_error_terminal_witness :
    (runDeviceFlow true (fun _ => .body unknownErrBody) (.ok dcSample)).1 =
        .error ("oauth error: " ++ "unsupported_grant_type") ∧
    (runDeviceFlowLoop true (fun _ => .body unknownErrBody)
        dcSample).pollTimes.length = 1 :=
  C10_poll_error_terminal true (fun _ => .body unknownErrBody) dcSample 1
    ("oauth error: " ++ "unsupported_grant_type") le_rfl
    (Or.inr (Or.inr ⟨unknownErrBody, rfl, by decide, by decide, by decide,
      by decide, by decide, rfl⟩))
    (fun j h1 h2 => absurd h1 (by omega))
    (Or.inl (by decide))

/-- C3 counterexample: with the OAuth client id configured and the user
denying the device flow, the resolver surfaces the device-flow error
verbatim — the surfaced message mentions neither `GITHUB_TOKEN` nor
`GITHUB_OAUTH_CLIENT_ID` and is not the remediation message, so the final
step's failure is not accompanied by remediation guidance enumerating every
configuration option, contrary to the claim. -/
theorem C3_counterexample :
    (resolveGitHubToken wDenied).1 = .error "access denied by user" ∧
    ¬ ("GITHUB_TOKEN".data <:+: "access denied by user".data) ∧
    ¬ ("GITHUB_OAUTH_CLIENT_ID".data <:+: "access denied by user".data) ∧
    "access denied by user" ≠ noTokenMessage :=
  ⟨rfl, by decide, by decide, by decide⟩

/-- C3 (amended): steps 1-4 absorb their errors; when the OAuth client id is
configured the device flow's error is surfaced verbatim (without added
remediation guidance), and when no step is available the resolver fails with
the `AuthenticationError` message, which does enumerate all three remediation
paths (`GITHUB_TOKEN`, the `gh` CLI, `GITHUB_OAUTH_CLIENT_ID`). -/
theorem C3_absorb_and_surface (w : World)
    (h1 : goTrim w.envGithubToken = "")
    (h2 : storedTokenValue w = "")
    (h3 : exceptErr (tryGhToken w.ghInstalled w.ghTokenOut).1 = true)
    (h4 : exceptErr (tryGhWebLogin w.ghInstalled w.ghLoginOk).1 = true ∨
          exceptErr (tryGhToken w.ghInstalled w.ghTokenOutAfterLogin).1 = true) :
    ((goTrim w.envOAuthClientID ≠ "" →
      ∀ m, (runDeviceFlow w.dfTie w.dfPolls w.dfInit).1 = .error m →
        (resolveGitHubToken w).1 = .error m) ∧
     (goTrim w.envOAuthClientID = "" →
      (resolveGitHubToken w).1 = .error noTokenMessage)) ∧
    ("GITHUB_TOKEN".data <:+: noTokenMessage.data) ∧
    ("gh".data <:+: noTokenMessage.data) ∧
    ("GITHUB_OAUTH_CLIENT_ID".data <:+: noTokenMessage.data) := by
  have hkey : ∃ acc, resolveGitHubToken w = deviceFlowStep w acc := by
    unfold resolveGitHubToken
    rw [if_neg (by simp [h1]), if_neg (by simp [h2])]
    cases hg1 : (tryGhToken w.ghInstalled w.ghTokenOut).1 with
    | ok t =>
      rw [hg1] at h3
      simp [exceptErr] at h3
    | error e1 =>
      cases hlg : (tryGhWebLogin w.ghInstalled w.ghLoginOk).1 with
      | error e3 => exact ⟨_, rfl⟩
      | ok u =>
        cases hg2 : (tryGhToken w.ghInstalled w.ghTokenOutAfterLogin).1 with
        | ok t =>
          exfalso
          rcases h4 with h4 | h4
          · rw [hlg] at h4
            simp [exceptErr] at h4
          · rw [hg2] at h4
            simp [exceptErr] at h4
        | error e2 => exact ⟨_, rfl⟩
  obtain ⟨acc, hacc⟩ := hkey
  refine ⟨⟨?_, ?_⟩, by decide, by decide, by decide⟩
  · intro hcl m hm
    rw [hacc]
    unfold deviceFlowStep
    rw [if_neg hcl, hm]
  · intro hcl
    rw [hacc]
    unfold deviceFlowStep
    rw [if_pos hcl]

/-- Witness for the amended C3 at concrete worlds: the denied device flow's
error surfaced verbatim, and the exhausted chain's remediation message. -/
theorem C3_absorb_and_surface_witness :
    (resolveGitHubToken wDenied).1 = .error "access denied by user" ∧
    (resolveGitHubToken wNoOptions).1 = .error noTokenMessage :=
  ⟨(C3_absorb_and_surface wDenied rfl rfl rfl (Or.inl rfl)).1.1 (by decide)
      "access denied by user" rfl,
   (C3_absorb_and_surface wNoOptions rfl rfl rfl (Or.inl rfl)).1.2 rfl⟩

/-- C4 counterexample: when `gh auth token` yields a credential and
persisting it fails (`writeOk = false`, the write was attempted), the
credential is still returned but the trace contains no warning at all —
the persistence failure is silently discarded (`_ =` in the Go source),
not reported as a warning as the claim states. -/
theorem C4_counterexample :
    (resolveGitHubToken wGhWriteFail).1 = .ok "ghp_abc" ∧
    wGhWriteFail.writeOk = false ∧
    writesOf (resolveGitHubToken wGhWriteFail).2 ≠ [] ∧
    ((resolveGitHubToken wGhWriteFail).2.all fun e => !(e.isWarn)) = true :=
  ⟨rfl, rfl, by decide, by decide⟩

/-- C4 (amended): a failure of the stored-credential write after a
successful resolution via the companion CLI or the device flow is non-fatal
— the credential is still returned — and the failure is silently ignored
(no warning is emitted; the Go code discards the error with `_ =`). -/
theorem C4_write_failure_nonfatal :
    (∀ (w : World) (o : String),
      goTrim w.envGithubToken = "" → storedTokenValue w = "" →
      w.ghInstalled = true → w.ghTokenOut = some o → goTrim o ≠ "" →
      w.writeOk = false →
      (resolveGitHubToken w).1 = .ok (goTrim o) ∧
      ((resolveGitHubToken w).2.all fun e => !(e.isWarn)) = true) ∧
    (∀ (w : World) (t : String),
      goTrim w.envGithubToken = "" → storedTokenValue w = "" →
      w.ghInstalled = false → goTrim w.envOAuthClientID ≠ "" →
      (runDeviceFlow w.dfTie w.dfPolls w.dfInit).1 = .ok t → t ≠ "" →
      w.writeOk = false →
      (resolveGitHubToken w).1 = .ok t ∧
      ((resolveGitHubToken w).2.all fun e => !(e.isWarn)) = true) := by
  constructor
  · intro w o h1 h2 h3 h4 h5 h6
    have hg1 : (tryGhToken w.ghInstalled w.ghTokenOut).1 = .ok (goTrim o) := by
      rw [h3, h4]
      simp [tryGhToken, h5]
    refine ⟨?_, (resolve_spec w).2.1⟩
    unfold resolveGitHubToken
    rw [if_neg (by simp [h1]), if_neg (by simp [h2]), hg1]
  · intro w t h1 h2 h3 hcl hdf ht0 h6
    have hg1 : (tryGhToken w.ghInstalled w.ghTokenOut).1 =
        .error "gh executable not found in PATH" := by
      rw [h3]
      rfl
    have hlg : (tryGhWebLogin w.ghInstalled w.ghLoginOk).1 =
        .error "gh executable not found in PATH" := by
      rw [h3]
      rfl
    refine ⟨?_, (resolve_spec w).2.1⟩
    unfold resolveGitHubToken
    rw [if_neg (by simp [h1]), if_neg (by simp [h2]), hg1]
    dsimp only
    rw [hlg]
    dsimp only
    unfold deviceFlowStep
    rw [if_neg hcl, hdf]
    dsimp only
    rw [if_neg ht0]

/-- Witness for the amended C4 at a concrete world. -/
theorem C4_write_failure_nonfatal_witness :
    (resolveGitHubToken wGhWriteFail).1 = .ok (goTrim "ghp_abc\n") ∧
    ((resolveGitHubToken wGhWriteFail).2.all fun e => !(e.isWarn)) = true :=
  C4_write_failure_nonfatal.1 wGhWriteFail "ghp_abc\n" rfl rfl rfl rfl
    (by decide) rfl

/-- C6 counterexample: reading a whitespace-only stored file succeeds with
the empty credential (`("", nil)` in Go) — it does not fail, contrary to the
claim that the read fails when the file is empty after trimming. -/
theorem C6_counterexample :
    (readStoredToken true (some " \n")).1 = .ok "" := rfl

/-- C6 (amended): writing a credential then reading the store returns the
identical trimmed credential regardless of surrounding whitespace; the
written contents replace the previous file (overwrite, not append) and do
not depend on it; the read fails when the user config dir is unavailable or
the file is absent/unreadable; but a file that is empty after trimming reads
back as the empty credential (no error), which the resolver treats as
absence. -/
theorem C6_store_roundtrip :
    (∀ (tok : String) (prev : Option String),
      (writeStoredToken true true prev tok).2.1 = some (goTrim tok ++ "\n") ∧
      (readStoredToken true (some (goTrim tok ++ "\n"))).1 = .ok (goTrim tok)) ∧
    (∀ f, (readStoredToken false f).1 = .error "user config dir unavailable") ∧
    ((readStoredToken true none).1 = .error "token file absent or unreadable") ∧
    (∀ data, goTrim data = "" →
      (readStoredToken true (some data)).1 = .ok "") := by
  refine ⟨?_, ?_, rfl, ?_⟩
  · intro tok prev
    constructor
    · rfl
    · have h := goTrim_append_newline (noEdge_goTrim tok)
      simp [readStoredToken, h]
  · intro f
    rfl
  · intro data h
    simp [readStoredToken, h]

/-- Witness for the amended C6 at a concrete credential. -/
theorem C6_store_roundtrip_witness :
    (writeStoredToken true true (some "old") "  secret  ").2.1 =
        some (goTrim "  secret  " ++ "\n") ∧
    (readStoredToken true (some (goTrim "  secret  " ++ "\n"))).1 =
        .ok (goTrim "  secret  ") :=
  C6_store_roundtrip.1 "  secret  " (some "old")

/-- C8: every credential the resolver returns, and every credential it
persists to the store (the file contents are the credential plus a trailing
newline), is non-empty and free of leading/trailing whitespace (trimming it
changes nothing), on every fallback path. -/
theorem C8_credential_invariant (w : World) :
    (∀ t, (resolveGitHubToken w).1 = .ok t →
      t ≠ "" ∧ noEdgeSpaceB t = true ∧ goTrim t = t) ∧
    (∀ c, c ∈ writesOf (resolveGitHubToken w).2 →
      ∃ u, c = u ++ "\n" ∧ u ≠ "" ∧ noEdgeSpaceB u = true ∧ goTrim u = u) := by
  have h := resolve_spec w
  constructor
  · intro t ht
    have h2 := h.2.2 t ht
    exact ⟨h2.2, h2.1, goTrim_eq_self h2.1⟩
  · intro c hc
    obtain ⟨u, hu1, hu2, hu3⟩ := h.1 c hc
    exact ⟨u, hu1, hu3, hu2, goTrim_eq_self hu2⟩

/-- Witness for C8 on the environment-variable path. -/
theorem C8_credential_invariant_witness :
    goTrim "  tok  " ≠ "" ∧ noEdgeSpaceB (goTrim "  tok  ") = true ∧
      goTrim (goTrim "  tok  ") = goTrim "  tok  " :=
  (C8_credential_invariant wEnv).1 (goTrim "  tok  ") rfl

end Repoinit
